import Mathlib

/-!
Shallow embedding of the messaging core of `src/contexts/ChatContext.tsx`
(the `ChatProvider` component) together with the message-form handler of
`src/components/MapView.tsx`.  The Firestore store is modelled as explicit
lists of documents; React state is a record threaded through the
operations; the single-threaded event loop is a step function over an
event type.  Server timestamps are a counter on the store; document ids
are generated from a counter, matching `addDoc`.
-/

namespace Chat

/-- A document in the `users` collection (only the fields the chat core
reads: `displayName`, `photoURL`).  `Option` models JS `undefined`/`null`;
an empty string is falsy in JS and the helpers below treat it so. -/
structure UserDoc where
  id : String
  displayName : Option String
  photoURL : Option String
  deriving DecidableEq

/-- One entry of a conversation document's `participants_info` map. -/
structure PInfo where
  displayName : Option String
  photoURL : Option String
  deriving DecidableEq

/-- A document in the `conversations` collection. -/
structure ConversationDoc where
  id : String
  participants : List String
  participants_info : List (String × PInfo)
  createdAt : Option Nat
  lastMessage : Option String
  lastMessageTimestamp : Option Nat
  deriving DecidableEq

/-- A document in the `messages` collection. -/
structure MessageDoc where
  id : String
  conversationId : String
  senderId : String
  receiverId : String
  text : String
  timestamp : Nat
  read : Bool
  deriving DecidableEq

/-- The Firestore backend: three collections, a fresh-id counter for
`addDoc`, and a clock for `serverTimestamp()`. -/
structure Store where
  users : List UserDoc
  conversations : List ConversationDoc
  messages : List MessageDoc
  nextId : Nat
  now : Nat
  deriving DecidableEq

/-- The authenticated user as exposed by `useAuth().currentUser`. -/
structure AuthUser where
  uid : String
  displayName : Option String
  photoURL : Option String
  deriving DecidableEq

/-- In-memory `Conversation` view (the exported interface in
`ChatContext.tsx`, lines 43-52).  Optional fields are optional in TS. -/
structure Conversation where
  id : String
  participants : List String
  lastMessage : Option String
  lastMessageTimestamp : Option Nat
  otherUserName : String
  otherUserPhotoURL : Option String
  otherUserId : String
  unreadCount : Option Nat
  deriving DecidableEq

/-- In-memory `Message` view (`ChatContext.tsx`, lines 23-30).  Note: the
TS interface has no `conversationId` field. -/
structure Message where
  id : String
  senderId : String
  receiverId : String
  text : String
  timestamp : Nat
  read : Bool
  deriving DecidableEq

/-- The React state of `ChatProvider` plus the bookkeeping of the focused
message subscription (`msgSubId` is the handle of the currently open
`onSnapshot` listener of the messages effect, `msgSubConv` the
conversation id captured by that listener's closure). -/
structure ChatState where
  currentUser : Option AuthUser
  userProfile : Option PInfo
  conversations : List Conversation
  currentConversation : Option Conversation
  messages : List Message
  isLoading : Bool
  unreadCount : Int
  msgSubId : Option Nat
  msgSubConv : Option String
  nextSubId : Nat
  deriving DecidableEq

/-- JS truthiness of an optional string (`undefined`, `null` and `""` are
falsy). -/
def truthy : Option String → Bool
  | none => false
  | some s => s ≠ ""

/-- JS `a || b` for optional strings. -/
def jsOr (a b : Option String) : Option String :=
  if truthy a then a else b

/-- JS `a || "dflt"`. -/
def strOr (a : Option String) (dflt : String) : String :=
  match jsOr a (some dflt) with
  | some s => s
  | none => dflt

/-- JS `a || null`. -/
def orNull (a : Option String) : Option String :=
  if truthy a then a else none

/-- Lookup in a `participants_info` map. -/
def lookupInfo (info : List (String × PInfo)) (k : String) : Option PInfo :=
  (info.find? (fun p => p.1 == k)).map (fun p => p.2)

/-- Assignment `participants_info[k] = v` (JS object: overwrite or add). -/
def setInfo (info : List (String × PInfo)) (k : String) (v : PInfo) :
    List (String × PInfo) :=
  if (info.find? (fun p => p.1 == k)).isSome then
    info.map (fun p => if p.1 == k then (k, v) else p)
  else
    info ++ [(k, v)]

/-- Fresh document id, as produced by `addDoc`. -/
def idOf (n : Nat) : String := "doc" ++ toString n

/-- The one-shot unread query of lines 131-141 / 217-225:
`conversationId == cid AND receiverId == uid AND read == false`. -/
def unreadMsgs (store : Store) (cid uid : String) : List MessageDoc :=
  store.messages.filter
    (fun m => m.conversationId == cid && m.receiverId == uid && m.read == false)

/-- Insertion into a list sorted by the boolean relation `le`
(`le x y` = comparator says x comes no later than y). -/
def insertSorted (le : α → α → Bool) (x : α) : List α → List α
  | [] => [x]
  | y :: ys => if le x y then x :: y :: ys else y :: insertSorted le x ys

/-- Stable sort modelling `Array.prototype.sort`. -/
def sortByLe (le : α → α → Bool) (l : List α) : List α :=
  l.foldr (insertSorted le) []

/-- The comparator of lines 160-164: most recent `lastMessageTimestamp`
first, conversations without one last. -/
def convLe (a b : Conversation) : Bool :=
  match a.lastMessageTimestamp, b.lastMessageTimestamp with
  | none, _ => false
  | some _, none => true
  | some x, some y => y ≤ x

/-- Projection of a message document to the in-memory view (lines
193-200). -/
def msgView (m : MessageDoc) : Message :=
  { id := m.id, senderId := m.senderId, receiverId := m.receiverId,
    text := m.text, timestamp := m.timestamp, read := m.read }

/-- The focused-conversation message query (lines 181-201):
`conversationId == cid`, ordered by `timestamp` ascending. -/
def msgQuery (store : Store) (cid : String) : List Message :=
  (sortByLe (fun a b => a.timestamp ≤ b.timestamp)
    (store.messages.filter (fun m => m.conversationId == cid))).map msgView

/-- Function `markConversationAsRead` (lines 213-251): query the unread messages of
the conversation, flip each `read` to `true`, zero the conversation's
in-memory unread count, and decrement the global count clamped at zero
(`Math.max(0, prev - size)`). -/
def markConversationAsRead (conversationId : String) (st : ChatState)
    (store : Store) : ChatState × Store :=
  match st.currentUser with
  | none => (st, store)
  | some user =>
    let n := (unreadMsgs store conversationId user.uid).length
    let store' := { store with
      messages := store.messages.map (fun m =>
        if m.conversationId == conversationId && m.receiverId == user.uid
            && m.read == false
        then { m with read := true } else m) }
    ({ st with
        conversations := st.conversations.map (fun c =>
          if c.id = conversationId then { c with unreadCount := some 0 } else c),
        unreadCount := max 0 (st.unreadCount - n) },
     store')

/-- Outcome of the `sendMessage` promise.  The TS function catches every
store error and reports it through a toast, so the promise always
resolves; `rejected` exists only to state that it is never produced. -/
inductive SendOutcome where
  | resolvedOk (toastMsg : String)
  | resolvedError (toastMsg : String)
  | rejected (error : String)
  deriving DecidableEq

/-- Whether an outcome is a rejection of the promise. -/
def SendOutcome.isRej : SendOutcome → Bool
  | .rejected _ => true
  | _ => false

structure SendResult where
  state : ChatState
  store : Store
  outcome : SendOutcome
  deriving DecidableEq

/-- Lines 267-269: search the in-memory list for a conversation whose
participants include both ends. -/
def findExistingConvo (uid receiverId : String)
    (convs : List Conversation) : Option Conversation :=
  convs.find? (fun c =>
    c.participants.contains receiverId && c.participants.contains uid)

/-- Lines 276-307: build the `participants_info` object and create the new
conversation document. -/
def createConversation (user : AuthUser) (profile : Option PInfo)
    (receiverId text : String) (store : Store) :
    ConversationDoc × Store :=
  let selfInfo : PInfo :=
    { displayName := jsOr (profile.bind (fun p => p.displayName)) user.displayName,
      photoURL := jsOr (profile.bind (fun p => p.photoURL)) user.photoURL }
  let info0 : List (String × PInfo) := setInfo [] user.uid selfInfo
  let info :=
    match store.users.find? (fun u => u.id == receiverId) with
    | some udoc =>
      setInfo info0 receiverId
        { displayName := some (strOr udoc.displayName "Unknown"),
          photoURL := orNull udoc.photoURL }
    | none => info0
  let d : ConversationDoc :=
    { id := idOf store.nextId,
      participants := [user.uid, receiverId],
      participants_info := info,
      createdAt := some store.now,
      lastMessage := some text,
      lastMessageTimestamp := some store.now }
  let store' : Store :=
    { store with
      conversations := store.conversations ++ [d],
      nextId := store.nextId + 1, now := store.now + 1 }
  (d, store')

/-- Lines 312-319: the local `Conversation` view built for a freshly
created conversation (note: no `lastMessageTimestamp`, no `unreadCount`). -/
def newConvoView (user : AuthUser) (receiverId text : String)
    (d : ConversationDoc) : Conversation :=
  { id := d.id,
    participants := [user.uid, receiverId],
    otherUserId := receiverId,
    lastMessage := some text,
    lastMessageTimestamp := none,
    otherUserName :=
      strOr ((lookupInfo d.participants_info receiverId).bind
        (fun p => p.displayName)) "Unknown",
    otherUserPhotoURL :=
      orNull ((lookupInfo d.participants_info receiverId).bind
        (fun p => p.photoURL)),
    unreadCount := none }

/-- Lines 260-323: resolve the conversation id for a send.  If a
conversation is focused its id is used unconditionally; otherwise the
in-memory list is searched; otherwise a new document is created and
focused. -/
def resolveConversationId (user : AuthUser) (st : ChatState)
    (store : Store) (receiverId text : String) :
    String × ChatState × Store :=
  match st.currentConversation with
  | some conv => (conv.id, st, store)
  | none =>
    match findExistingConvo user.uid receiverId st.conversations with
    | some existing =>
      (existing.id, { st with currentConversation := some existing }, store)
    | none =>
      let c := createConversation user st.userProfile receiverId text store
      (c.1.id,
       { st with currentConversation := some (newConvoView user receiverId text c.1) },
       c.2)

/-- The message document written by lines 326-333. -/
def newMessageDoc (cid uid receiverId text : String) (store : Store) :
    MessageDoc :=
  { id := idOf store.nextId, conversationId := cid, senderId := uid,
    receiverId := receiverId, text := text, timestamp := store.now,
    read := false }

/-- The `addDoc(collection(db, 'messages'), ...)` call of lines 326-333. -/
def appendMessage (cid uid receiverId text : String) (store : Store) : Store :=
  { store with
    messages := store.messages ++ [newMessageDoc cid uid receiverId text store],
    nextId := store.nextId + 1, now := store.now + 1 }

/-- Lines 336-340: update the conversation's `lastMessage` /
`lastMessageTimestamp`. -/
def touchConversation (cid text : String) (store : Store) : Store :=
  { store with
    conversations := store.conversations.map (fun c =>
      if c.id = cid then
        { c with lastMessage := some text,
                 lastMessageTimestamp := some store.now }
      else c),
    now := store.now + 1 }

/-- Function `sendMessage` (lines 253-346).  With no authenticated user it shows a
toast and returns a resolved promise; otherwise it resolves the
conversation, appends the message document and touches the conversation.
No validation of `text` is performed anywhere in the function. -/
def sendMessage (receiverId text : String) (st : ChatState) (store : Store) :
    SendResult :=
  match st.currentUser with
  | none => ⟨st, store, .resolvedError "You must be logged in to send messages"⟩
  | some user =>
    let r := resolveConversationId user st store receiverId text
    let store2 := appendMessage r.1 user.uid receiverId text r.2.2
    let store3 := touchConversation r.1 text store2
    ⟨r.2.1, store3, .resolvedOk "Message sent"⟩

/-- Function `selectConversation` (lines 348-353): unconditionally focus the given
conversation object, then mark it read when its id is nonempty. -/
def selectConversation (conv : Conversation) (st : ChatState)
    (store : Store) : ChatState × Store :=
  let st1 := { st with currentConversation := some conv }
  if conv.id ≠ "" then markConversationAsRead conv.id st1 store
  else (st1, store)

/-- The `updateDoc` patch of line 122 writing `participants_info` back. -/
def patchConvInfo (docId : String) (info' : List (String × PInfo))
    (store : Store) : Store :=
  { store with
    conversations := store.conversations.map (fun c =>
      if c.id = docId then { c with participants_info := info' } else c) }

/-- The participant-info backfill of lines 104-127: when the cached name
is the placeholder or the photo is missing, fetch the other user's
document and, if it exists, use its fields and patch the conversation
document. -/
def backfillInfo (otherUserId : String) (d : ConversationDoc)
    (store : Store) (cachedName : String) (cachedPhoto : Option String) :
    String × Option String × Store :=
  if cachedName = "Unknown" ∨ cachedPhoto = none then
    match store.users.find? (fun u => u.id == otherUserId) with
    | some udoc =>
      let name' := strOr udoc.displayName cachedName
      let photo' := jsOr udoc.photoURL cachedPhoto
      (name', photo',
       patchConvInfo d.id
         (setInfo d.participants_info otherUserId
           { displayName := some name', photoURL := photo' }) store)
    | none => (cachedName, cachedPhoto, store)
  else (cachedName, cachedPhoto, store)

/-- One step of the conversation-snapshot loop body (lines 94-157): build
the in-memory view of one changed conversation document, running the
participant-info backfill (lines 100-127, which may patch the document in
the store) and the per-conversation unread query (lines 129-145). -/
def processDocChange (uid : String) (d : ConversationDoc) (store : Store) :
    Conversation × Nat × Store :=
  let otherUserId := (d.participants.find? (fun i => i != uid)).getD ""
  let cachedName :=
    strOr ((lookupInfo d.participants_info otherUserId).bind
      (fun p => p.displayName)) "Unknown"
  let cachedPhoto :=
    orNull ((lookupInfo d.participants_info otherUserId).bind
      (fun p => p.photoURL))
  let nps := backfillInfo otherUserId d store cachedName cachedPhoto
  let n := (unreadMsgs nps.2.2 d.id uid).length
  ({ id := d.id,
     participants := d.participants,
     lastMessage := d.lastMessage,
     lastMessageTimestamp := d.lastMessageTimestamp,
     otherUserName := nps.1,
     otherUserPhotoURL := nps.2.1,
     otherUserId := otherUserId,
     unreadCount := some n },
   n, nps.2.2)

/-- The `for (const docChange of snapshot.docChanges())` loop: fold over
the changed documents accumulating the (rebuilt-from-scratch) list, the
total unread count and the possibly patched store. -/
def processDocChanges (uid : String) (docs : List ConversationDoc)
    (store : Store) : List Conversation × Nat × Store :=
  match docs with
  | [] => ([], 0, store)
  | d :: rest =>
    let r := processDocChange uid d store
    let rs := processDocChanges uid rest r.2.2
    (r.1 :: rs.1, r.2.1 + rs.2.1, rs.2.2)

/-- The conversation-subscription callback (lines 90-169): rebuild the
list from `snapshot.docChanges()` **only**, sort it, and replace the
in-memory list and the global unread count. -/
def conversationsSnapshotHandler (user : AuthUser)
    (docs : List ConversationDoc) (st : ChatState) (store : Store) :
    ChatState × Store :=
  let r := processDocChanges user.uid docs store
  ({ st with
      conversations := sortByLe convLe r.1,
      unreadCount := (r.2.1 : Int),
      isLoading := false },
   r.2.2)

/-- The message-subscription effect body (lines 175-210): with a focused
conversation and a user, open a listener scoped to the focused
conversation id (capturing that id in its closure); otherwise clear the
message list and hold no listener.  The effect's cleanup closed the
previous listener, so at most one is ever active. -/
def retargetMsgSub (st : ChatState) : ChatState :=
  match st.currentConversation, st.currentUser with
  | some conv, some _ =>
    { st with
      msgSubId := some st.nextSubId,
      msgSubConv := some conv.id,
      nextSubId := st.nextSubId + 1 }
  | _, _ =>
    { st with messages := [], msgSubId := none, msgSubConv := none }

/-- Delivery of a snapshot on message listener `subId` (lines 188-207).
A listener that has been unsubscribed (`subId` no longer the active
handle) never fires, so the delivery is discarded.  An active listener
replaces the message list with the query result for its captured
conversation id and then runs `markConversationAsRead` on it. -/
def deliverMsgSnapshot (subId : Nat) (st : ChatState) (store : Store) :
    ChatState × Store :=
  if st.msgSubId = some subId then
    let cid := st.msgSubConv.getD ""
    markConversationAsRead cid { st with messages := msgQuery store cid } store
  else (st, store)

/-- An occurrence on the event loop: an auth transition, a snapshot
delivery on one of the two subscriptions, or one of the exported
operations. -/
inductive Event where
  | authChange (u : Option AuthUser) (profile : Option PInfo)
  | convSnapshot (docs : List ConversationDoc)
  | msgSnapshot (subId : Nat)
  | send (receiverId text : String)
  | select (conv : Conversation)
  | markRead (conversationId : String)

/-- One event-loop step of the provider.  Auth transitions run the two
effect bodies (lines 77-82 and 175-179): on sign-out the conversation
list is cleared and `isLoading` set false, the message effect clears the
message list and closes the listener; `unreadCount` and
`currentConversation` are not touched.  `send` and `select` re-run the
message effect afterwards because they may change
`currentConversation`. -/
def step (e : Event) (s : ChatState × Store) : ChatState × Store :=
  match e with
  | .authChange u profile =>
    let st1 := { s.1 with currentUser := u, userProfile := profile }
    match u with
    | none =>
      ({ st1 with
          conversations := [], isLoading := false,
          messages := [], msgSubId := none, msgSubConv := none }, s.2)
    | some _ => (retargetMsgSub st1, s.2)
  | .convSnapshot docs =>
    match s.1.currentUser with
    | none => s
    | some user => conversationsSnapshotHandler user docs s.1 s.2
  | .msgSnapshot subId => deliverMsgSnapshot subId s.1 s.2
  | .send receiverId text =>
    let r := sendMessage receiverId text s.1 s.2
    (retargetMsgSub r.state, r.store)
  | .select conv =>
    let r := selectConversation conv s.1 s.2
    (retargetMsgSub r.1, r.2)
  | .markRead cid => markConversationAsRead cid s.1 s.2

/-- Run a list of events. -/
def run (events : List Event) (s : ChatState × Store) : ChatState × Store :=
  events.foldl (fun s e => step e s) s

/-- The `useState` initial values of lines 70-74. -/
def initState (u : Option AuthUser) (profile : Option PInfo) : ChatState :=
  { currentUser := u, userProfile := profile, conversations := [],
    currentConversation := none, messages := [], isLoading := true,
    unreadCount := 0, msgSubId := none, msgSubConv := none, nextSubId := 0 }

/-- Drop leading whitespace characters. -/
def dropLeadingWs : List Char → List Char
  | [] => []
  | c :: cs => if c.isWhitespace then dropLeadingWs cs else c :: cs

/-- JS `String.prototype.trim`: strip leading and trailing whitespace. -/
def jsTrim (s : String) : String :=
  ⟨dropLeadingWs (dropLeadingWs s.data.reverse).reverse⟩

/-- Function `handleSendMessage` of `src/components/MapView.tsx` (lines 430-444):
silently returns when the trimmed input is empty or no conversation is
focused; otherwise calls `sendMessage` with the trimmed text. -/
def handleSendMessage (newMessage : String) (st : ChatState)
    (store : Store) : ChatState × Store :=
  if jsTrim newMessage = "" then (st, store)
  else
    match st.currentConversation with
    | none => (st, store)
    | some conv =>
      let r := sendMessage conv.otherUserId (jsTrim newMessage) st store
      (r.state, r.store)

/-! Concrete fixtures used by counterexamples and witnesses. -/

/-- A signed-in user. -/
def userOne : AuthUser :=
  { uid := "u1", displayName := some "One", photoURL := some "p1" }

/-- Fresh provider state for `userOne`. -/
def freshState : ChatState := initState (some userOne) none

/-- Empty backend. -/
def emptyStore : Store :=
  { users := [], conversations := [], messages := [], nextId := 0, now := 0 }

/-- A conversation view between `u1` and `u3`. -/
def convWithU3 : Conversation :=
  { id := "c13", participants := ["u1", "u3"], lastMessage := none,
    lastMessageTimestamp := none, otherUserName := "Three",
    otherUserPhotoURL := some "p3", otherUserId := "u3",
    unreadCount := some 0 }

/-- The store document behind `convWithU3`. -/
def docWithU3 : ConversationDoc :=
  { id := "c13", participants := ["u1", "u3"], participants_info := [],
    createdAt := none, lastMessage := none, lastMessageTimestamp := none }

/-- State in which `convWithU3` is focused. -/
def focusedState : ChatState :=
  { freshState with
    currentConversation := some convWithU3, conversations := [convWithU3] }

/-- Store holding only `docWithU3`. -/
def storeWithU3 : Store := { emptyStore with conversations := [docWithU3] }

/-- Conversation document `c1` between `u1` and `u2`, fully denormalized. -/
def convDocC1 : ConversationDoc :=
  { id := "c1", participants := ["u1", "u2"],
    participants_info := [("u2", { displayName := some "Bob", photoURL := some "pb" })],
    createdAt := none, lastMessage := some "hey", lastMessageTimestamp := some 10 }

/-- Conversation document `c2` between `u1` and `u3`, fully denormalized. -/
def convDocC2 : ConversationDoc :=
  { id := "c2", participants := ["u1", "u3"],
    participants_info := [("u3", { displayName := some "Cyn", photoURL := some "pc" })],
    createdAt := none, lastMessage := some "yo", lastMessageTimestamp := some 11 }

/-- An unread message to `u1` in `c1`. -/
def msgDocM1 : MessageDoc :=
  { id := "m1", conversationId := "c1", senderId := "u2", receiverId := "u1",
    text := "hey", timestamp := 10, read := false }

/-- An unread message to `u1` in `c2`. -/
def msgDocM2 : MessageDoc :=
  { id := "m2", conversationId := "c2", senderId := "u3", receiverId := "u1",
    text := "yo", timestamp := 11, read := false }

/-- Backend holding both conversations and one unread message in each. -/
def twoConvStore : Store :=
  { users := [], conversations := [convDocC1, convDocC2],
    messages := [msgDocM1, msgDocM2], nextId := 0, now := 20 }

/-- The in-memory view of `convDocC1`. -/
def convViewC1 : Conversation :=
  { id := "c1", participants := ["u1", "u2"], lastMessage := some "hey",
    lastMessageTimestamp := some 10, otherUserName := "Bob",
    otherUserPhotoURL := some "pb", otherUserId := "u2",
    unreadCount := some 1 }

/-- A message document to `u1` already reconciled (`read = true`). -/
def msgReadDoc : MessageDoc :=
  { id := "m1", conversationId := "c1", senderId := "u2", receiverId := "u1",
    text := "hey", timestamp := 10, read := true }

/-- Backend holding only `msgReadDoc`. -/
def storeWithReadMsg : Store := { emptyStore with messages := [msgReadDoc] }

/-- Preservation of set `read` flags between two store snapshots: every
message already marked read keeps (under the same id) a read-true
document. -/
def ReadPreserved (s s' : Store) : Prop :=
  ∀ m ∈ s.messages, m.read = true →
    ∃ m' ∈ s'.messages, m'.id = m.id ∧ m'.read = true

/-! Helper lemmas. -/

theorem mem_insertSorted (le : α → α → Bool) (x a : α) (l : List α) :
    a ∈ insertSorted le x l ↔ a = x ∨ a ∈ l := by
  induction l with
  | nil => simp [insertSorted]
  | cons y ys ih =>
    by_cases h : le x y
    · simp [insertSorted, h]
    · simp [insertSorted, h, ih]
      tauto

theorem mem_sortByLe (le : α → α → Bool) (a : α) (l : List α) :
    a ∈ sortByLe le l ↔ a ∈ l := by
  induction l with
  | nil => simp [sortByLe]
  | cons y ys ih =>
    have : sortByLe le (y :: ys) = insertSorted le y (sortByLe le ys) := rfl
    rw [this, mem_insertSorted]
    simp [ih]

theorem mem_msgQuery (store : Store) (cid : String) (m : Message)
    (h : m ∈ msgQuery store cid) :
    ∃ d ∈ store.messages, d.conversationId = cid ∧ msgView d = m := by
  unfold msgQuery at h
  rcases List.mem_map.mp h with ⟨d, hd, hdm⟩
  rw [mem_sortByLe] at hd
  rcases List.mem_filter.mp hd with ⟨hmem, hp⟩
  refine ⟨d, hmem, ?_, hdm⟩
  simpa using hp

theorem markRead_frame (cid : String) (st : ChatState) (store : Store) :
    (markConversationAsRead cid st store).1.currentUser = st.currentUser ∧
    (markConversationAsRead cid st store).1.currentConversation
      = st.currentConversation ∧
    (markConversationAsRead cid st store).1.messages = st.messages ∧
    (markConversationAsRead cid st store).1.msgSubId = st.msgSubId ∧
    (markConversationAsRead cid st store).1.msgSubConv = st.msgSubConv ∧
    (markConversationAsRead cid st store).1.nextSubId = st.nextSubId ∧
    (markConversationAsRead cid st store).1.userProfile = st.userProfile := by
  unfold markConversationAsRead
  cases h : st.currentUser <;> simp [h]

theorem markRead_unread_nonneg (cid : String) (st : ChatState) (store : Store)
    (h : 0 ≤ st.unreadCount) :
    0 ≤ (markConversationAsRead cid st store).1.unreadCount := by
  unfold markConversationAsRead
  cases st.currentUser with
  | none => exact h
  | some u => exact le_max_left 0 _

theorem select_frame (conv : Conversation) (st : ChatState) (store : Store) :
    (selectConversation conv st store).1.currentConversation = some conv ∧
    (selectConversation conv st store).1.currentUser = st.currentUser ∧
    (selectConversation conv st store).1.messages = st.messages ∧
    (selectConversation conv st store).1.nextSubId = st.nextSubId := by
  unfold selectConversation
  by_cases hid : conv.id = ""
  · simp [hid]
  · simp only [hid, ne_eq, not_false_iff, if_true]
    have h := markRead_frame conv.id { st with currentConversation := some conv } store
    exact ⟨h.2.1, h.1, h.2.2.1, h.2.2.2.2.2.1⟩

theorem retarget_frame (st : ChatState) :
    (retargetMsgSub st).currentUser = st.currentUser ∧
    (retargetMsgSub st).currentConversation = st.currentConversation ∧
    (retargetMsgSub st).unreadCount = st.unreadCount ∧
    (retargetMsgSub st).conversations = st.conversations := by
  unfold retargetMsgSub
  cases st.currentConversation <;> cases st.currentUser <;> simp

theorem retarget_subscribes (st : ChatState) (conv : Conversation)
    (u : AuthUser) (hc : st.currentConversation = some conv)
    (hu : st.currentUser = some u) :
    (retargetMsgSub st).msgSubId = some st.nextSubId ∧
    (retargetMsgSub st).msgSubConv = some conv.id ∧
    (retargetMsgSub st).nextSubId = st.nextSubId + 1 ∧
    (retargetMsgSub st).messages = st.messages := by
  unfold retargetMsgSub
  rw [hc, hu]
  exact ⟨rfl, rfl, rfl, rfl⟩

theorem resolve_spec (u : AuthUser) (st : ChatState) (store : Store)
    (receiverId text : String) :
    (resolveConversationId u st store receiverId text).2.1.currentUser
      = st.currentUser ∧
    (resolveConversationId u st store receiverId text).2.1.unreadCount
      = st.unreadCount ∧
    (resolveConversationId u st store receiverId text).2.2.messages
      = store.messages ∧
    ∃ conv,
      (resolveConversationId u st store receiverId text).2.1.currentConversation
        = some conv ∧
      conv.id = (resolveConversationId u st store receiverId text).1 := by
  unfold resolveConversationId
  cases hc : st.currentConversation with
  | some c => exact ⟨rfl, rfl, rfl, c, hc, rfl⟩
  | none =>
    cases hf : findExistingConvo u.uid receiverId st.conversations with
    | some e => exact ⟨rfl, rfl, rfl, e, rfl, rfl⟩
    | none =>
      refine ⟨rfl, rfl, rfl, newConvoView u receiverId text
        (createConversation u st.userProfile receiverId text store).1, rfl, rfl⟩

theorem resolve_focused (u : AuthUser) (st : ChatState) (store : Store)
    (receiverId text : String) (c : Conversation)
    (hc : st.currentConversation = some c) :
    resolveConversationId u st store receiverId text = (c.id, st, store) := by
  unfold resolveConversationId
  rw [hc]

theorem sendMessage_eq_some (u : AuthUser) (st : ChatState) (store : Store)
    (receiverId text : String) (h : st.currentUser = some u) :
    sendMessage receiverId text st store =
      ⟨(resolveConversationId u st store receiverId text).2.1,
       touchConversation (resolveConversationId u st store receiverId text).1
         text
         (appendMessage (resolveConversationId u st store receiverId text).1
           u.uid receiverId text
           (resolveConversationId u st store receiverId text).2.2),
       .resolvedOk "Message sent"⟩ := by
  unfold sendMessage
  rw [h]

theorem touch_messages (cid text : String) (store : Store) :
    (touchConversation cid text store).messages = store.messages := rfl

theorem append_conversations (cid uid r text : String) (store : Store) :
    (appendMessage cid uid r text store).conversations
      = store.conversations := rfl

theorem touch_conversations_length (cid text : String) (store : Store) :
    (touchConversation cid text store).conversations.length
      = store.conversations.length := by
  unfold touchConversation
  simp

theorem create_conversations (u : AuthUser) (p : Option PInfo)
    (receiverId text : String) (store : Store) :
    (createConversation u p receiverId text store).2.conversations
      = store.conversations ++ [(createConversation u p receiverId text store).1]
      := rfl

theorem create_participants (u : AuthUser) (p : Option PInfo)
    (receiverId text : String) (store : Store) :
    (createConversation u p receiverId text store).1.participants
      = [u.uid, receiverId] := rfl

theorem send_spec (u : AuthUser) (st : ChatState) (store : Store)
    (receiverId text : String) (h : st.currentUser = some u) :
    ∃ conv m,
      (sendMessage receiverId text st store).state.currentUser
        = st.currentUser ∧
      (sendMessage receiverId text st store).state.currentConversation
        = some conv ∧
      (sendMessage receiverId text st store).store.messages
        = store.messages ++ [m] ∧
      m.conversationId = conv.id ∧ m.text = text ∧ m.senderId = u.uid ∧
      m.receiverId = receiverId ∧ m.read = false := by
  rw [sendMessage_eq_some u st store receiverId text h]
  rcases resolve_spec u st store receiverId text with
    ⟨huser, _, hmsgs, conv, hconv, hid⟩
  refine ⟨conv,
    newMessageDoc (resolveConversationId u st store receiverId text).1 u.uid
      receiverId text (resolveConversationId u st store receiverId text).2.2,
    huser, hconv, ?_, hid.symm, rfl, rfl, rfl, rfl⟩
  rw [touch_messages]
  unfold appendMessage
  simp [hmsgs]

/-- Claim C10: on sign-out (`currentUser` becomes `none`) the effect
bodies clear the conversation list and the message list, but neither
`unreadCount` nor `currentConversation` is reset — both keep their
previous values, and the store is untouched. -/
theorem signout_clears_lists_retains_count (st : ChatState) (store : Store) :
    (step (.authChange none none) (st, store)).1.conversations = [] ∧
    (step (.authChange none none) (st, store)).1.messages = [] ∧
    (step (.authChange none none) (st, store)).1.unreadCount = st.unreadCount ∧
    (step (.authChange none none) (st, store)).1.currentConversation
      = st.currentConversation ∧
    (step (.authChange none none) (st, store)).2 = store :=
  ⟨rfl, rfl, rfl, rfl, rfl⟩

/-- Claim C1, counterexample: `sendMessage` performs no validation of the
text, so a whitespace-only send by a signed-in user with no prior
conversation does create a Conversation document and a Message document
whose text is the whitespace string — the claimed `ValidationError`
rejection does not exist. -/
theorem send_whitespace_creates_message_cex :
    (sendMessage "u2" "   " freshState emptyStore).store.conversations.length = 1 ∧
    (sendMessage "u2" "   " freshState emptyStore).store.messages.length = 1 ∧
    ((sendMessage "u2" "   " freshState emptyStore).store.messages.map
      (fun m => m.text)) = ["   "] := by
  decide

/-- Claim C5, code bug: the conversation-subscription callback rebuilds
the list from `snapshot.docChanges()` only and **replaces** the whole
in-memory list with it.  After a full first snapshot (`c1` and `c2`, two
unread messages, global count 2), an incremental snapshot touching only
`c1` leaves a list without `c2` and a global unread count of 1, while the
store still holds both conversations of `u1` and an unread message in
`c2`. -/
theorem conv_snapshot_drops_unchanged_docs :
    (run [.convSnapshot [convDocC1, convDocC2]]
        (freshState, twoConvStore)).1.conversations.map (fun c => c.id)
      = ["c2", "c1"] ∧
    (run [.convSnapshot [convDocC1, convDocC2]]
        (freshState, twoConvStore)).1.unreadCount = 2 ∧
    (run [.convSnapshot [convDocC1, convDocC2], .convSnapshot [convDocC1]]
        (freshState, twoConvStore)).1.conversations.map (fun c => c.id)
      = ["c1"] ∧
    (run [.convSnapshot [convDocC1, convDocC2], .convSnapshot [convDocC1]]
        (freshState, twoConvStore)).1.unreadCount = 1 ∧
    (run [.convSnapshot [convDocC1, convDocC2], .convSnapshot [convDocC1]]
        (freshState, twoConvStore)).2.conversations.map (fun c => c.id)
      = ["c1", "c2"] ∧
    (unreadMsgs
      (run [.convSnapshot [convDocC1, convDocC2], .convSnapshot [convDocC1]]
        (freshState, twoConvStore)).2 "c2" "u1").length = 1 := by
  decide

/-- Claim C6, counterexample: a send with no active identity does not
reject — `sendMessage` shows a toast and returns a resolved promise, and
performs no store write. -/
theorem send_unauthenticated_not_rejected_cex :
    (sendMessage "u2" "hi" (initState none none) emptyStore).outcome.isRej
      = false ∧
    (sendMessage "u2" "hi" (initState none none) emptyStore).outcome
      = .resolvedError "You must be logged in to send messages" ∧
    (sendMessage "u2" "hi" (initState none none) emptyStore).store
      = emptyStore := by
  decide

/-- Claim C6, amended: a send with no active identity performs no store
write and leaves the local state unchanged, but is surfaced as a
**resolved** promise carrying only the error toast — it is never a
rejection. -/
theorem send_unauthenticated_resolves (st : ChatState) (store : Store)
    (receiverId text : String) (h : st.currentUser = none) :
    (sendMessage receiverId text st store).state = st ∧
    (sendMessage receiverId text st store).store = store ∧
    (sendMessage receiverId text st store).outcome
      = .resolvedError "You must be logged in to send messages" ∧
    (sendMessage receiverId text st store).outcome.isRej = false := by
  simp [sendMessage, h, SendOutcome.isRej]

/-- Witness for `send_unauthenticated_resolves` at a concrete input. -/
theorem send_unauthenticated_resolves_witness :
    (sendMessage "u9" "hello" (initState none none) emptyStore).state
        = initState none none ∧
    (sendMessage "u9" "hello" (initState none none) emptyStore).store
        = emptyStore ∧
    (sendMessage "u9" "hello" (initState none none) emptyStore).outcome
        = .resolvedError "You must be logged in to send messages" ∧
    (sendMessage "u9" "hello" (initState none none) emptyStore).outcome.isRej
        = false := by
  have h := send_unauthenticated_resolves (initState none none) emptyStore
    "u9" "hello" rfl
  exact ⟨h.1, h.2.1, h.2.2.1, h.2.2.2⟩

/-- Claim C7, counterexample: `selectConversation` receives a
`Conversation` object (not an id), and focusing one that is absent from
the current list is not a no-op — the focused conversation changes to it
and no error of any kind is reported. -/
theorem select_unknown_changes_focus_cex :
    convWithU3 ∉ freshState.conversations ∧
    freshState.currentConversation ≠ some convWithU3 ∧
    (selectConversation convWithU3 freshState emptyStore).1.currentConversation
      = some convWithU3 := by
  decide

/-- Claim C7, amended: `selectConversation` unconditionally sets the given
conversation object as focused — even one absent from the current list —
then runs read-marking when its id is nonempty; it reports no
`NotFoundError` and never crashes (it is a total function). -/
theorem select_always_focuses (conv : Conversation) (st : ChatState)
    (store : Store) (h : conv ∉ st.conversations) :
    (selectConversation conv st store).1.currentConversation = some conv := by
  unfold selectConversation
  by_cases hid : conv.id = ""
  · simp [hid]
  · simp only [hid, if_pos, ne_eq, not_false_iff, if_true]
    unfold markConversationAsRead
    cases st.currentUser <;> rfl

/-- Witness for `select_always_focuses` at a concrete input. -/
theorem select_always_focuses_witness :
    (selectConversation convWithU3 freshState emptyStore).1.currentConversation
      = some convWithU3 :=
  select_always_focuses convWithU3 freshState emptyStore (by decide)

/-- Claim C1, amended: the core's `sendMessage` performs no validation of
the text — with an active identity it writes the Message (whitespace and
all) and no `ValidationError` exists; the only guard against
empty-after-trim input is the UI form handler `handleSendMessage`, which
silently returns without calling `sendMessage` and without reporting any
error. -/
theorem send_no_validation (st : ChatState) (store : Store) (u : AuthUser)
    (receiverId text : String) (hu : st.currentUser = some u)
    (ht : jsTrim text = "") :
    handleSendMessage text st store = (st, store) ∧
    ∃ m, (sendMessage receiverId text st store).store.messages
        = store.messages ++ [m] ∧ m.text = text ∧ m.read = false := by
  constructor
  · unfold handleSendMessage
    simp [ht]
  · rcases send_spec u st store receiverId text hu with
      ⟨conv, m, _, _, hm, _, htx, _, _, hrd⟩
    exact ⟨m, hm, htx, hrd⟩

/-- Witness for `send_no_validation` at a concrete whitespace input. -/
theorem send_no_validation_witness :
    handleSendMessage "   " freshState emptyStore = (freshState, emptyStore) ∧
    ∃ m, (sendMessage "u2" "   " freshState emptyStore).store.messages
        = emptyStore.messages ++ [m] ∧ m.text = "   " ∧ m.read = false :=
  send_no_validation freshState emptyStore userOne "u2" "   " rfl (by decide)

/-- Claim C2: two sequential sends to the same receiver, the second
beginning only after the first has fully completed, append two Message
documents with the same `conversationId`, and the second send creates no
further Conversation document. -/
theorem sequential_sends_share_conversation (st : ChatState) (store : Store)
    (u : AuthUser) (other t1 t2 : String) (hu : st.currentUser = some u) :
    ∃ m1 m2,
      (sendMessage other t1 st store).store.messages
        = store.messages ++ [m1] ∧
      (sendMessage other t2 (sendMessage other t1 st store).state
          (sendMessage other t1 st store).store).store.messages
        = (sendMessage other t1 st store).store.messages ++ [m2] ∧
      m1.conversationId = m2.conversationId ∧
      (sendMessage other t2 (sendMessage other t1 st store).state
          (sendMessage other t1 st store).store).store.conversations.length
        = (sendMessage other t1 st store).store.conversations.length := by
  rcases send_spec u st store other t1 hu with
    ⟨conv, m1, huser, hconv, hm1, hcid1, _⟩
  have hu2 : (sendMessage other t1 st store).state.currentUser = some u := by
    rw [huser, hu]
  have heq := sendMessage_eq_some u (sendMessage other t1 st store).state
    (sendMessage other t1 st store).store other t2 hu2
  rw [resolve_focused u (sendMessage other t1 st store).state
    (sendMessage other t1 st store).store other t2 conv hconv] at heq
  refine ⟨m1, newMessageDoc conv.id u.uid other t2
    (sendMessage other t1 st store).store, hm1, ?_, ?_, ?_⟩
  · rw [heq, touch_messages]
    rfl
  · rw [hcid1]
    rfl
  · rw [heq, touch_conversations_length, append_conversations]

/-- Witness for `sequential_sends_share_conversation` at a concrete
input. -/
theorem sequential_sends_share_conversation_witness :
    ∃ m1 m2,
      (sendMessage "u2" "a" freshState emptyStore).store.messages
        = emptyStore.messages ++ [m1] ∧
      (sendMessage "u2" "b" (sendMessage "u2" "a" freshState emptyStore).state
          (sendMessage "u2" "a" freshState emptyStore).store).store.messages
        = (sendMessage "u2" "a" freshState emptyStore).store.messages ++ [m2] ∧
      m1.conversationId = m2.conversationId ∧
      (sendMessage "u2" "b" (sendMessage "u2" "a" freshState emptyStore).state
          (sendMessage "u2" "a" freshState emptyStore).store).store.conversations.length
        = (sendMessage "u2" "a" freshState emptyStore).store.conversations.length :=
  sequential_sends_share_conversation freshState emptyStore userOne
    "u2" "a" "b" rfl

/-- A list of length two containing two distinct elements is exactly the
unordered pair of those elements. -/
theorem two_mem_char {l : List String} {a b : String}
    (hl : l.length = 2) (ha : a ∈ l) (hb : b ∈ l) (hab : a ≠ b) :
    ∀ x, x ∈ l ↔ (x = a ∨ x = b) := by
  rcases List.length_eq_two.mp hl with ⟨p, q, rfl⟩
  intro x
  simp at ha hb ⊢
  rcases ha with ha | ha <;> rcases hb with hb | hb <;> subst ha <;> subst hb
  · exact absurd rfl hab
  · tauto
  · tauto
  · exact absurd rfl hab

/-- Lemma: `touchConversation` keeps every document (same id, same
participants). -/
theorem touch_mem (cid text : String) (store : Store) (d : ConversationDoc)
    (hd : d ∈ store.conversations) :
    ∃ d' ∈ (touchConversation cid text store).conversations,
      d'.id = d.id ∧ d'.participants = d.participants := by
  unfold touchConversation
  refine ⟨if d.id = cid then
    { d with lastMessage := some text, lastMessageTimestamp := some store.now }
    else d, ?_, ?_, ?_⟩
  · simp only []
    exact List.mem_map_of_mem _ hd
  · by_cases h : d.id = cid <;> simp [h]
  · by_cases h : d.id = cid <;> simp [h]

/-- Claim C4, counterexample: with the conversation between `u1` and `u3`
focused, `send("u2", "hi")` writes the Message into that focused
conversation: the created Message has `senderId = u1`, `receiverId = u2`
and `conversationId = c13`, but the only Conversation document `c13` has
participants `[u1, u3]`, which `u2` is not in. -/
theorem send_focused_mismatch_cex :
    ((sendMessage "u2" "hi" focusedState storeWithU3).store.messages.map
      (fun m => (m.conversationId, m.senderId, m.receiverId)))
      = [("c13", "u1", "u2")] ∧
    ((sendMessage "u2" "hi" focusedState storeWithU3).store.conversations.map
      (fun c => (c.id, c.participants)))
      = [("c13", ["u1", "u3"])] ∧
    ¬ (("u2" : String) ∈ (["u1", "u3"] : List String)) := by
  decide

/-- Claim C4, amended: when **no** conversation is focused, the receiver
differs from the sender, and every listed conversation matches a store
document with the same two-element participant list, each Message created
by send satisfies `senderId ≠ receiverId` and its `conversationId`
references a Conversation document whose participant set is exactly
the pair of sender and receiver.  (When a conversation is focused, the
send goes to the focused conversation regardless of the receiver.) -/
theorem send_unfocused_message_wellformed
    (st : ChatState) (store : Store) (u : AuthUser) (receiverId text : String)
    (hu : st.currentUser = some u)
    (hc : st.currentConversation = none)
    (hr : receiverId ≠ u.uid)
    (hwf : ∀ c ∈ st.conversations, ∃ d ∈ store.conversations,
      d.id = c.id ∧ d.participants = c.participants ∧
      c.participants.length = 2) :
    ∃ m, (sendMessage receiverId text st store).store.messages
        = store.messages ++ [m] ∧
      m.senderId = u.uid ∧ m.receiverId = receiverId ∧
      m.senderId ≠ m.receiverId ∧
      ∃ d ∈ (sendMessage receiverId text st store).store.conversations,
        d.id = m.conversationId ∧
        ∀ x, x ∈ d.participants ↔ (x = m.senderId ∨ x = m.receiverId) := by
  have heq := sendMessage_eq_some u st store receiverId text hu
  cases hf : findExistingConvo u.uid receiverId st.conversations with
  | some e =>
    have hres : resolveConversationId u st store receiverId text
        = (e.id, { st with currentConversation := some e }, store) := by
      unfold resolveConversationId
      rw [hc, hf]
    rw [hres] at heq
    have he_mem : e ∈ st.conversations := by
      unfold findExistingConvo at hf
      exact List.mem_of_find?_eq_some hf
    have hp : receiverId ∈ e.participants ∧ u.uid ∈ e.participants := by
      unfold findExistingConvo at hf
      have h2 := List.find?_some hf
      simpa using h2
    rcases hwf e he_mem with ⟨d, hd_mem, hd_id, hd_part, hd_len⟩
    rcases touch_mem e.id text (appendMessage e.id u.uid receiverId text store)
        d (by rw [append_conversations]; exact hd_mem) with
      ⟨d', hd'_mem, hd'_id, hd'_part⟩
    refine ⟨newMessageDoc e.id u.uid receiverId text store,
      ?_, rfl, rfl, hr.symm, d', ?_, ?_, ?_⟩
    · rw [heq, touch_messages]
      rfl
    · rw [heq]
      exact hd'_mem
    · rw [hd'_id, hd_id]
      rfl
    · rw [hd'_part, hd_part]
      exact two_mem_char hd_len hp.2 hp.1 hr.symm
  | none =>
    set C := createConversation u st.userProfile receiverId text store with hC
    have hres1 : (resolveConversationId u st store receiverId text).1
        = C.1.id := by
      unfold resolveConversationId
      rw [hc, hf]
    have hres2 : (resolveConversationId u st store receiverId text).2.2
        = C.2 := by
      unfold resolveConversationId
      rw [hc, hf]
    rw [hres1, hres2] at heq
    have hnew_mem : C.1 ∈ C.2.conversations := by
      rw [hC, create_conversations]
      simp
    rcases touch_mem C.1.id text
        (appendMessage C.1.id u.uid receiverId text C.2) C.1
        (by rw [append_conversations]; exact hnew_mem) with
      ⟨d', hd'_mem, hd'_id, hd'_part⟩
    refine ⟨newMessageDoc C.1.id u.uid receiverId text C.2,
      ?_, rfl, rfl, hr.symm, d', ?_, ?_, ?_⟩
    · rw [heq, touch_messages]
      rfl
    · rw [heq]
      exact hd'_mem
    · rw [hd'_id]
      rfl
    · rw [hd'_part, hC, create_participants]
      intro x
      simp [newMessageDoc]

/-- Witness for `send_unfocused_message_wellformed` at a concrete
input. -/
theorem send_unfocused_message_wellformed_witness :
    ∃ m, (sendMessage "u2" "hi" freshState emptyStore).store.messages
        = emptyStore.messages ++ [m] ∧
      m.senderId = userOne.uid ∧ m.receiverId = "u2" ∧
      m.senderId ≠ m.receiverId ∧
      ∃ d ∈ (sendMessage "u2" "hi" freshState emptyStore).store.conversations,
        d.id = m.conversationId ∧
        ∀ x, x ∈ d.participants ↔ (x = m.senderId ∨ x = m.receiverId) :=
  send_unfocused_message_wellformed freshState emptyStore userOne "u2" "hi"
    rfl rfl (by decide) (by simp [freshState, initState])

/-- Claim C3: focusing conversation `A` and then conversation `B` leaves
the `A` listener unsubscribed, so a snapshot delivered on it after the
switch is discarded (the whole state is unchanged), while a snapshot on
the live `B` listener yields a message list drawn entirely from documents
whose `conversationId` is `B.id`. -/
theorem stale_snapshot_discarded (st : ChatState) (store : Store)
    (u : AuthUser) (A B : Conversation) (hu : st.currentUser = some u) :
    ∃ a b,
      (step (.select A) (st, store)).1.msgSubId = some a ∧
      (step (.select B) (step (.select A) (st, store))).1.msgSubId = some b ∧
      a ≠ b ∧
      step (.msgSnapshot a) (step (.select B) (step (.select A) (st, store)))
        = step (.select B) (step (.select A) (st, store)) ∧
      (step (.msgSnapshot b)
          (step (.select B) (step (.select A) (st, store)))).1.messages
        = msgQuery (step (.select B) (step (.select A) (st, store))).2 B.id ∧
      ∀ m ∈ (step (.msgSnapshot b)
          (step (.select B) (step (.select A) (st, store)))).1.messages,
        ∃ d ∈ (step (.select B) (step (.select A) (st, store))).2.messages,
          d.conversationId = B.id ∧ msgView d = m := by
  set s1 := step (.select A) (st, store) with hs1
  set s2 := step (.select B) s1 with hs2
  have hA := select_frame A st store
  have hA_user : (selectConversation A st store).1.currentUser = some u := by
    rw [hA.2.1, hu]
  have h1 := retarget_subscribes (selectConversation A st store).1 A u
    hA.1 hA_user
  have hS1sub : s1.1.msgSubId = some st.nextSubId := by
    rw [hs1]
    show (retargetMsgSub (selectConversation A st store).1).msgSubId = _
    rw [h1.1, hA.2.2.2]
  have hS1user : s1.1.currentUser = some u := by
    rw [hs1]
    show (retargetMsgSub (selectConversation A st store).1).currentUser = _
    rw [(retarget_frame (selectConversation A st store).1).1, hA_user]
  have hS1next : s1.1.nextSubId = st.nextSubId + 1 := by
    rw [hs1]
    show (retargetMsgSub (selectConversation A st store).1).nextSubId = _
    rw [h1.2.2.1, hA.2.2.2]
  have hB := select_frame B s1.1 s1.2
  have hB_user : (selectConversation B s1.1 s1.2).1.currentUser = some u := by
    rw [hB.2.1, hS1user]
  have h2 := retarget_subscribes (selectConversation B s1.1 s1.2).1 B u
    hB.1 hB_user
  have hS2sub : s2.1.msgSubId = some (st.nextSubId + 1) := by
    rw [hs2]
    show (retargetMsgSub (selectConversation B s1.1 s1.2).1).msgSubId = _
    rw [h2.1, hB.2.2.2, hS1next]
  have hS2conv : s2.1.msgSubConv = some B.id := by
    rw [hs2]
    show (retargetMsgSub (selectConversation B s1.1 s1.2).1).msgSubConv = _
    exact h2.2.1
  have hdeliver : (step (.msgSnapshot (st.nextSubId + 1)) s2).1.messages
      = msgQuery s2.2 B.id := by
    show (deliverMsgSnapshot (st.nextSubId + 1) s2.1 s2.2).1.messages = _
    unfold deliverMsgSnapshot
    rw [hS2sub, if_pos rfl, hS2conv]
    simp only [Option.getD_some]
    rw [(markRead_frame _ _ _).2.2.1]
  refine ⟨st.nextSubId, st.nextSubId + 1, hS1sub, hS2sub, by omega, ?_,
    hdeliver, ?_⟩
  · show deliverMsgSnapshot st.nextSubId s2.1 s2.2 = s2
    unfold deliverMsgSnapshot
    rw [hS2sub, if_neg (by simp)]
  · intro m hm
    rw [hdeliver] at hm
    exact mem_msgQuery s2.2 B.id m hm

/-- Witness for `stale_snapshot_discarded` at a concrete input. -/
theorem stale_snapshot_discarded_witness :
    ∃ a b,
      (step (.select convWithU3) (freshState, twoConvStore)).1.msgSubId
        = some a ∧
      (step (.select convViewC1)
        (step (.select convWithU3) (freshState, twoConvStore))).1.msgSubId
        = some b ∧
      a ≠ b ∧
      step (.msgSnapshot a) (step (.select convViewC1)
          (step (.select convWithU3) (freshState, twoConvStore)))
        = step (.select convViewC1)
            (step (.select convWithU3) (freshState, twoConvStore)) ∧
      (step (.msgSnapshot b) (step (.select convViewC1)
          (step (.select convWithU3) (freshState, twoConvStore)))).1.messages
        = msgQuery (step (.select convViewC1)
            (step (.select convWithU3) (freshState, twoConvStore))).2
            convViewC1.id ∧
      ∀ m ∈ (step (.msgSnapshot b) (step (.select convViewC1)
          (step (.select convWithU3) (freshState, twoConvStore)))).1.messages,
        ∃ d ∈ (step (.select convViewC1)
            (step (.select convWithU3) (freshState, twoConvStore))).2.messages,
          d.conversationId = convViewC1.id ∧ msgView d = m :=
  stale_snapshot_discarded freshState twoConvStore userOne
    convWithU3 convViewC1 rfl

theorem rp_refl (s : Store) : ReadPreserved s s :=
  fun m hm hr => ⟨m, hm, rfl, hr⟩

theorem rp_of_messages_eq {s s' : Store} (h : s'.messages = s.messages) :
    ReadPreserved s s' :=
  fun m hm hr => ⟨m, h ▸ hm, rfl, hr⟩

theorem rp_append {s s' : Store} (xs : List MessageDoc)
    (h : s'.messages = s.messages ++ xs) : ReadPreserved s s' :=
  fun m hm hr => ⟨m, by rw [h]; exact List.mem_append_left xs hm, rfl, hr⟩

theorem rp_trans {s1 s2 s3 : Store} (h1 : ReadPreserved s1 s2)
    (h2 : ReadPreserved s2 s3) : ReadPreserved s1 s3 := by
  intro m hm hr
  rcases h1 m hm hr with ⟨m2, hm2, hid2, hr2⟩
  rcases h2 m2 hm2 hr2 with ⟨m3, hm3, hid3, hr3⟩
  exact ⟨m3, hm3, hid3.trans hid2, hr3⟩

theorem rp_markRead (cid : String) (st : ChatState) (store : Store) :
    ReadPreserved store (markConversationAsRead cid st store).2 := by
  unfold markConversationAsRead
  cases h : st.currentUser with
  | none => exact rp_refl store
  | some u =>
    intro m hm hr
    have hfm : (if m.conversationId == cid && m.receiverId == u.uid
        && m.read == false then { m with read := true } else m) = m := by
      simp [hr]
    refine ⟨m, ?_, rfl, hr⟩
    show m ∈ List.map (fun m' =>
      if m'.conversationId == cid && m'.receiverId == u.uid
          && m'.read == false then { m' with read := true } else m')
      store.messages
    exact List.mem_map.mpr ⟨m, hm, hfm⟩

theorem patchConvInfo_messages (i : String) (inf : List (String × PInfo))
    (s : Store) : (patchConvInfo i inf s).messages = s.messages := rfl

theorem backfillInfo_messages (o : String) (d : ConversationDoc) (s : Store)
    (n : String) (p : Option String) :
    (backfillInfo o d s n p).2.2.messages = s.messages := by
  unfold backfillInfo
  split
  · split <;> rfl
  · rfl

theorem processDocChange_messages (uid : String) (d : ConversationDoc)
    (s : Store) : (processDocChange uid d s).2.2.messages = s.messages := by
  exact backfillInfo_messages _ _ _ _ _

theorem processDocChanges_messages (uid : String)
    (docs : List ConversationDoc) (s : Store) :
    (processDocChanges uid docs s).2.2.messages = s.messages := by
  induction docs generalizing s with
  | nil => rfl
  | cons d rest ih =>
    have hstep : (processDocChanges uid (d :: rest) s).2.2
        = (processDocChanges uid rest (processDocChange uid d s).2.2).2.2 := rfl
    rw [hstep, ih, processDocChange_messages]

theorem step_read_preserved (e : Event) (s : ChatState × Store) :
    ReadPreserved s.2 (step e s).2 := by
  cases e with
  | authChange u p => cases u <;> exact rp_refl _
  | convSnapshot docs =>
    simp only [step]
    cases s.1.currentUser with
    | none => exact rp_refl _
    | some user =>
      exact rp_of_messages_eq (processDocChanges_messages user.uid docs s.2)
  | msgSnapshot subId =>
    show ReadPreserved s.2 (deliverMsgSnapshot subId s.1 s.2).2
    unfold deliverMsgSnapshot
    by_cases h : s.1.msgSubId = some subId
    · rw [if_pos h]
      exact rp_markRead _ _ _
    · rw [if_neg h]
      exact rp_refl _
  | send receiverId text =>
    show ReadPreserved s.2 (sendMessage receiverId text s.1 s.2).store
    cases hcu : s.1.currentUser with
    | none =>
      unfold sendMessage
      rw [hcu]
      exact rp_refl _
    | some u =>
      rw [sendMessage_eq_some u s.1 s.2 receiverId text hcu]
      refine rp_append
        [newMessageDoc (resolveConversationId u s.1 s.2 receiverId text).1
          u.uid receiverId text
          (resolveConversationId u s.1 s.2 receiverId text).2.2] ?_
      rw [touch_messages]
      show (resolveConversationId u s.1 s.2 receiverId text).2.2.messages
        ++ _ = _
      rw [(resolve_spec u s.1 s.2 receiverId text).2.2.1]
  | select conv =>
    show ReadPreserved s.2 (selectConversation conv s.1 s.2).2
    unfold selectConversation
    by_cases hid : conv.id = ""
    · simp only [hid, ne_eq, not_true_eq_false, if_false]
      exact rp_refl _
    · simp only [hid, ne_eq, not_false_iff, if_true]
      exact rp_markRead _ _ _
  | markRead cid => exact rp_markRead _ _ _

theorem run_read_preserved (events : List Event) (s : ChatState × Store) :
    ReadPreserved s.2 (run events s).2 := by
  induction events generalizing s with
  | nil => exact rp_refl _
  | cons e rest ih => exact rp_trans (step_read_preserved e s) (ih (step e s))

/-- Claim C8: the `read` flag only ever transitions `false → true`.  Along
any event trace of this core, a message document whose `read` flag is
`true` keeps a read-true document under its id: no operation (send,
read-reconciliation, snapshot handling) reverts it to `false`. -/
theorem read_flag_never_reverts (events : List Event) (st : ChatState)
    (store : Store) (m : MessageDoc) (hm : m ∈ store.messages)
    (hr : m.read = true) :
    ∃ m', m' ∈ (run events (st, store)).2.messages ∧ m'.id = m.id ∧
      m'.read = true := by
  rcases run_read_preserved events (st, store) m hm hr with ⟨m', h1, h2, h3⟩
  exact ⟨m', h1, h2, h3⟩

/-- Witness for `read_flag_never_reverts` on a concrete trace. -/
theorem read_flag_never_reverts_witness :
    ∃ m', m' ∈ (run [.markRead "c1", .send "u2" "hi"]
        (freshState, storeWithReadMsg)).2.messages ∧
      m'.id = msgReadDoc.id ∧ m'.read = true :=
  read_flag_never_reverts [.markRead "c1", .send "u2" "hi"] freshState
    storeWithReadMsg msgReadDoc (by decide) rfl

theorem step_unread_nonneg (e : Event) (s : ChatState × Store)
    (h : 0 ≤ s.1.unreadCount) : 0 ≤ (step e s).1.unreadCount := by
  cases e with
  | authChange u p =>
    cases u with
    | none => exact h
    | some user =>
      show 0 ≤ (retargetMsgSub _).unreadCount
      rw [(retarget_frame _).2.2.1]
      exact h
  | convSnapshot docs =>
    simp only [step]
    cases s.1.currentUser with
    | none => exact h
    | some user => exact Int.natCast_nonneg _
  | msgSnapshot subId =>
    show 0 ≤ (deliverMsgSnapshot subId s.1 s.2).1.unreadCount
    unfold deliverMsgSnapshot
    by_cases hsub : s.1.msgSubId = some subId
    · rw [if_pos hsub]
      exact markRead_unread_nonneg _ _ _ h
    · rw [if_neg hsub]
      exact h
  | send receiverId text =>
    show 0 ≤ (retargetMsgSub (sendMessage receiverId text s.1 s.2).state).unreadCount
    rw [(retarget_frame _).2.2.1]
    cases hcu : s.1.currentUser with
    | none =>
      unfold sendMessage
      rw [hcu]
      exact h
    | some u =>
      rw [sendMessage_eq_some u s.1 s.2 receiverId text hcu]
      show 0 ≤ (resolveConversationId u s.1 s.2 receiverId text).2.1.unreadCount
      rw [(resolve_spec u s.1 s.2 receiverId text).2.1]
      exact h
  | select conv =>
    show 0 ≤ (retargetMsgSub (selectConversation conv s.1 s.2).1).unreadCount
    rw [(retarget_frame _).2.2.1]
    unfold selectConversation
    by_cases hid : conv.id = ""
    · simp only [hid, ne_eq, not_true_eq_false, if_false]
      exact h
    · simp only [hid, ne_eq, not_false_iff, if_true]
      exact markRead_unread_nonneg _ _ _ h
  | markRead cid => exact markRead_unread_nonneg _ _ _ h

theorem run_unread_nonneg (events : List Event) (s : ChatState × Store)
    (h : 0 ≤ s.1.unreadCount) : 0 ≤ (run events s).1.unreadCount := by
  induction events generalizing s with
  | nil => exact h
  | cons e rest ih => exact ih (step e s) (step_unread_nonneg e s h)

/-- Claim C9: the global unread count is never negative in any state
reachable from the initial provider state: snapshot-triggered recounts
are sums of non-negative per-conversation counts, and read-reconciliation
subtracts clamped at zero. -/
theorem unread_count_never_negative (events : List Event)
    (u : Option AuthUser) (profile : Option PInfo) (store : Store) :
    0 ≤ (run events (initState u profile, store)).1.unreadCount :=
  run_unread_nonneg events (initState u profile, store) (le_refl 0)

end Chat
